import Mathlib

/-!
Verification of the external-task orchestration layer of the
AI-Travel-Planner backend (FastAPI + Aliyun services).

Shallow embedding of:
- `app/services/ai_service.py`   (`AIService.invoke_completion`, `AIService.extract_text`)
- `app/services/asr_service.py`  (`ASRService.recognize_with_polling`)
- `app/services/oss_service.py`  (`OSSService.delete_file`)
- `app/routers/asr.py`           (`recognize_audio`, the upload→recognize→cleanup saga)
- `app/routers/ai.py`            (`generate_and_create_plan`, the plan-generation pipeline)

Remote HTTP effects (upload, submit, query, fetch, completion POST, persistence)
are parameters of the embedded functions; JSON values are modelled by `PyVal`,
and the Python dynamic-typing behaviour of the exact attribute/subscript/`in`
operations the source performs is modelled explicitly (an operation that would
raise in Python returns `Except.error`).
-/

/-- A Python/JSON value, as handled by the source (`response.json()` results,
parsed AI output, and the values stored in them). -/
inductive PyVal where
  | none
  | bool (b : Bool)
  | int (n : Int)
  | str (s : String)
  | list (xs : List PyVal)
  | dict (kvs : List (String × PyVal))

/-- A Python runtime error raised by an operation in the embedded code. -/
inductive PyErr where
  | typeError
  | keyError
  | attributeError
  | indexError
deriving DecidableEq

/-- Lookup in a Python dict modelled as an association list (keys assumed
distinct, as produced by `json.loads` / `response.json()`). -/
def dictLookup (kvs : List (String × PyVal)) (k : String) : Option PyVal :=
  match kvs with
  | [] => Option.none
  | (k', v) :: rest => if k' = k then Option.some v else dictLookup rest k

/-- Python `d.get(k, default)` on a dict. -/
def dictGetD (kvs : List (String × PyVal)) (k : String) (dflt : PyVal) : PyVal :=
  match dictLookup kvs k with
  | Option.some v => v
  | Option.none => dflt

/-- Is `pat` a (contiguous) sublist of `s`?  Models Python `pat in s` for
strings, on the underlying character lists. -/
def subList (pat : List Char) : List Char → Bool
  | [] => pat.isEmpty
  | c :: rest => pat.isPrefixOf (c :: rest) || subList pat rest

/-- Python `pat in s` for two strings (substring test). -/
def strContains (s pat : String) : Bool :=
  subList pat.toList s.toList

/-- Python `v == key` where `key` is a `str`: only a `str` with the same
characters compares equal. -/
def pyEqStr (v : PyVal) (key : String) : Bool :=
  match v with
  | PyVal.str t => t = key
  | _ => false

/-- Python `key in v` for a string `key`: key membership on a dict, substring
test on a string, element equality on a list, `TypeError` otherwise. -/
def pyContains (v : PyVal) (key : String) : Except PyErr Bool :=
  match v with
  | PyVal.dict kvs => Except.ok (dictLookup kvs key).isSome
  | PyVal.str s => Except.ok (strContains s key)
  | PyVal.list xs => Except.ok (xs.any (pyEqStr · key))
  | _ => Except.error PyErr.typeError

/-- Python `v[key]` for a string `key`: dict lookup (`KeyError` when missing),
`TypeError` on any non-dict. -/
def pySubscript (v : PyVal) (key : String) : Except PyErr PyVal :=
  match v with
  | PyVal.dict kvs =>
    match dictLookup kvs key with
    | Option.some x => Except.ok x
    | Option.none => Except.error PyErr.keyError
  | _ => Except.error PyErr.typeError

/-- `AIService.extract_text` (ai_service.py lines 66-87): the flat fallback
branch, `if "text" in response: return response["text"]` else `return ""`. -/
def extractFlat (response : List (String × PyVal)) : Except PyErr PyVal :=
  match dictLookup response "text" with
  | Option.some v => Except.ok v
  | Option.none => Except.ok (PyVal.str "")

/-- `AIService.extract_text` (ai_service.py lines 66-87):
`if "output" in response and "text" in response["output"]: return
response["output"]["text"]`, else the flat fallback.  The `in` test on
`response["output"]` follows Python semantics and may raise. -/
def extract_text (response : List (String × PyVal)) : Except PyErr PyVal :=
  match dictLookup response "output" with
  | Option.some ov =>
    match pyContains ov "text" with
    | Except.error e => Except.error e
    | Except.ok true => pySubscript ov "text"
    | Except.ok false => extractFlat response
  | Option.none => extractFlat response

/-- Does the "output" field of the envelope, when present, hold a dict?
(The domain on which `extract_text` is actually total.) -/
def outputFieldDictOrAbsent (response : List (String × PyVal)) : Bool :=
  match dictLookup response "output" with
  | Option.none => true
  | Option.some (PyVal.dict _) => true
  | Option.some _ => false

/-- What the spec says `extract_text` returns: the nested `output.text` field
when present, else the flat top-level `text` field when present, else `""`. -/
def extract_text_spec (response : List (String × PyVal)) : PyVal :=
  match dictLookup response "output" with
  | Option.some (PyVal.dict kvs) =>
    match dictLookup kvs "text" with
    | Option.some v => v
    | Option.none =>
      match dictLookup response "text" with
      | Option.some v => v
      | Option.none => PyVal.str ""
  | _ =>
    match dictLookup response "text" with
    | Option.some v => v
    | Option.none => PyVal.str ""

/-- C6 counterexample: `extract_text` is not total.  On the envelope
`{"output": 0}` the Python test `"text" in response["output"]` raises
`TypeError: argument of type 'int' is not iterable`, so `extract_text`
raises instead of returning a value. -/
theorem extract_text_not_total_cex :
    extract_text [("output", PyVal.int 0)] = Except.error PyErr.typeError := rfl

/-- C6 (amended): on every envelope whose "output" field is absent or holds a
dict, `extract_text` never raises and returns the nested `output.text` field
when present, otherwise the flat top-level `text` field when present,
otherwise the empty string. -/
theorem extract_text_total_on_dict_output (response : List (String × PyVal))
    (h : outputFieldDictOrAbsent response = true) :
    extract_text response = Except.ok (extract_text_spec response) := by
  unfold extract_text extract_text_spec outputFieldDictOrAbsent at *
  cases hov : dictLookup response "output" with
  | none => simp [hov, extractFlat]; cases dictLookup response "text" <;> simp
  | some ov =>
    cases ov <;> simp [hov] at h ⊢
    case dict kvs =>
      cases htx : dictLookup kvs "text" with
      | none => simp [pyContains, htx, extractFlat]; cases dictLookup response "text" <;> simp
      | some v => simp [pyContains, pySubscript, htx]

/-- C6 witness: concrete envelopes for the amended theorem — a nested
`output.text`, a flat `text`, and neither. -/
theorem extract_text_total_on_dict_output_witness :
    extract_text [("output", PyVal.dict [("text", PyVal.str "hi")])] = Except.ok (PyVal.str "hi")
    ∧ extract_text [("text", PyVal.str "flat")] = Except.ok (PyVal.str "flat")
    ∧ extract_text [("other", PyVal.int 3)] = Except.ok (PyVal.str "") := by
  refine ⟨?_, ?_, ?_⟩
  · have h := extract_text_total_on_dict_output
      [("output", PyVal.dict [("text", PyVal.str "hi")])] (by rfl)
    simpa [extract_text_spec, dictLookup] using h
  · have h := extract_text_total_on_dict_output [("text", PyVal.str "flat")] (by rfl)
    simpa [extract_text_spec, dictLookup] using h
  · have h := extract_text_total_on_dict_output [("other", PyVal.int 3)] (by rfl)
    simpa [extract_text_spec, dictLookup] using h

/-!
## ASR polling (`ASRService.recognize_with_polling`, asr_service.py lines 121-165)

Query snapshots follow the documented wire format of the task-query endpoint
(`{"output": {"task_status": <string>, "results": [{"transcription_url": ...} |
{"message": ...}]}}`); every field may be missing.  The only subscript the
loop performs, `[0]` in the FAILED branch, is modelled with its Python
`IndexError` behaviour on an empty list.
-/

/-- One entry of the `results` array of a query response. -/
structure ResultEntry where
  transcription_url : Option String
  message : Option String
deriving DecidableEq

/-- The `output` section of a query response. -/
structure TaskOutput where
  task_status : Option String
  results : Option (List ResultEntry)
deriving DecidableEq

/-- A query-response snapshot (`result` in the source's polling loop). -/
structure Snapshot where
  output : Option TaskOutput
deriving DecidableEq

/-- `result.get("output", {}).get("task_status")` (asr_service.py line 147). -/
def statusOf (s : Snapshot) : Option String :=
  match s.output with
  | Option.some o => o.task_status
  | Option.none => Option.none

/-- `result.get("output", {}).get("results", [])` (asr_service.py line 151). -/
def resultsOrEmpty (s : Snapshot) : List ResultEntry :=
  match s.output with
  | Option.some o => o.results.getD []
  | Option.none => []

/-- `result.get("output", {}).get("results", [{}])` (asr_service.py line 159):
the default is a one-element list holding an empty dict, and applies only when
the `results` key is missing — not when its value is the empty list. -/
def failedResults (s : Snapshot) : List ResultEntry :=
  match s.output with
  | Option.some o => o.results.getD [⟨Option.none, Option.none⟩]
  | Option.none => [⟨Option.none, Option.none⟩]

/-- The condition `results and results[0].get("transcription_url")` of
asr_service.py line 152 together with the value `results[0]["transcription_url"]`
read on line 153: `some u` when the results list is non-empty and its first
entry holds a truthy (non-empty) transcription url `u`, `none` otherwise. -/
def firstResultUrl (s : Snapshot) : Option String :=
  match resultsOrEmpty s with
  | [] => Option.none
  | r :: _ =>
    match r.transcription_url with
    | Option.some u => if u = "" then Option.none else Option.some u
    | Option.none => Option.none

/-- The error outcomes of `recognize_with_polling`.  In the source they are all
`Exception`s distinguished by raise site / message; the spec's error taxonomy
names them, and the constructors record the raise site plus the carried
message. -/
inductive AsrError where
  | remoteTaskFailed (msg : String)   -- `raise Exception(message)`, line 160
  | missingResult                     -- `raise Exception("未找到识别结果")`, line 155
  | pollingTimeout                    -- `raise Exception("识别任务超时")`, line 165
  | fetchError (msg : String)         -- raised inside `get_transcription_text`
  | submitError (msg : String)        -- raised inside `submit_task`
  | indexError                        -- Python IndexError from `[0]` on line 159
deriving DecidableEq

/-- The polling loop of `recognize_with_polling` (asr_service.py lines 144-165).
`queries i` is the snapshot returned by the (i+1)-th `query_task` call,
`fetch` is `get_transcription_text`, the first `Nat` is the remaining
attempts, the second the number of queries already performed.  Returns the
outcome together with the total number of queries performed.  The
`asyncio.sleep(interval)` between attempts has no observable effect here. -/
def pollLoopAux (queries : Nat → Snapshot) (fetch : String → Except AsrError String) :
    Nat → Nat → Except AsrError String × Nat
  | 0, i => (Except.error AsrError.pollingTimeout, i)
  | k + 1, i =>
    let s := queries i
    if statusOf s = Option.some "SUCCEEDED" then
      match firstResultUrl s with
      | Option.some u => (fetch u, i + 1)
      | Option.none => (Except.error AsrError.missingResult, i + 1)
    else if statusOf s = Option.some "FAILED" then
      match failedResults s with
      | [] => (Except.error AsrError.indexError, i + 1)
      | r :: _ =>
        (Except.error (AsrError.remoteTaskFailed (r.message.getD "识别任务失败")), i + 1)
    else
      pollLoopAux queries fetch k (i + 1)

/-- `ASRService.recognize_with_polling` (asr_service.py lines 121-165):
`submit` is the outcome of `submit_task`; on success the polling loop runs
with up to `max_retries` attempts (source default 60).  The snapshot stream
may depend on the submitted task id.  Returns the outcome and the number of
`query_task` calls performed. -/
def recognize_with_polling (submit : Except AsrError String)
    (queries : String → Nat → Snapshot)
    (fetch : String → Except AsrError String)
    (max_retries : Nat) : Except AsrError String × Nat :=
  match submit with
  | Except.error e => (Except.error e, 0)
  | Except.ok task_id => pollLoopAux (queries task_id) fetch max_retries 0

/-- A snapshot on which the loop continues polling: its status is neither
exactly "SUCCEEDED" nor exactly "FAILED" (unknown strings, a missing
`task_status` field, and a missing `output` section all satisfy this). -/
def nonTerminal (s : Snapshot) : Prop :=
  statusOf s ≠ Option.some "SUCCEEDED" ∧ statusOf s ≠ Option.some "FAILED"

instance (s : Snapshot) : Decidable (nonTerminal s) := by
  unfold nonTerminal; infer_instance

theorem pollLoopAux_step (queries : Nat → Snapshot) (fetch : String → Except AsrError String)
    (k i : Nat) (h : nonTerminal (queries i)) :
    pollLoopAux queries fetch (k + 1) i = pollLoopAux queries fetch k (i + 1) := by
  simp [pollLoopAux, h.1, h.2]

theorem pollLoopAux_skipN (queries : Nat → Snapshot) (fetch : String → Except AsrError String) :
    ∀ (n k i : Nat), n ≤ k → (∀ j, j < n → nonTerminal (queries (i + j))) →
      pollLoopAux queries fetch k i = pollLoopAux queries fetch (k - n) (i + n)
  | 0, k, i, _, _ => by simp
  | n + 1, k, i, hnk, hall => by
    obtain ⟨k', rfl⟩ : ∃ k', k = k' + 1 := ⟨k - 1, by omega⟩
    have h0 : nonTerminal (queries i) := by simpa using hall 0 (Nat.succ_pos n)
    rw [pollLoopAux_step queries fetch k' i h0]
    have hrec := pollLoopAux_skipN queries fetch n k' (i + 1) (by omega)
      (fun j hj => by
        have := hall (j + 1) (by omega)
        simpa [Nat.add_assoc, Nat.add_comm 1 j] using this)
    rw [hrec]
    have e1 : k' - n = k' + 1 - (n + 1) := by omega
    have e2 : i + 1 + n = i + (n + 1) := by omega
    rw [e1, e2]

theorem pollLoopAux_count_le (queries : Nat → Snapshot) (fetch : String → Except AsrError String) :
    ∀ (k i : Nat), (pollLoopAux queries fetch k i).2 ≤ i + k
  | 0, i => by simp [pollLoopAux]
  | k + 1, i => by
    unfold pollLoopAux
    by_cases h1 : statusOf (queries i) = Option.some "SUCCEEDED"
    · simp only [h1, if_true]
      cases firstResultUrl (queries i) <;> simp
    · by_cases h2 : statusOf (queries i) = Option.some "FAILED"
      · simp only [h1, if_false, h2, if_true]
        cases failedResults (queries i) <;> simp
      · simp only [h1, if_false, h2]
        have := pollLoopAux_count_le queries fetch k (i + 1)
        simpa [Nat.add_assoc, Nat.add_comm 1 k] using this

/-- C2: `recognize_with_polling` returns immediately upon the first snapshot
whose status is SUCCEEDED with a non-empty result address, returning the
outcome of `get_transcription_text` on that address, after exactly `n + 1`
queries when the first `n` snapshots were non-terminal. -/
theorem recognize_polling_success_immediate
    (tid : String) (queries : String → Nat → Snapshot)
    (fetch : String → Except AsrError String) (maxR n : Nat) (u : String)
    (hn : n < maxR)
    (hpre : ∀ j, j < n → nonTerminal (queries tid j))
    (hst : statusOf (queries tid n) = Option.some "SUCCEEDED")
    (hurl : firstResultUrl (queries tid n) = Option.some u) :
    recognize_with_polling (Except.ok tid) queries fetch maxR = (fetch u, n + 1) := by
  show pollLoopAux (queries tid) fetch maxR 0 = _
  have hskip := pollLoopAux_skipN (queries tid) fetch n maxR 0 (by omega)
    (fun j hj => by simpa using hpre j hj)
  rw [hskip]
  obtain ⟨m, hm⟩ : ∃ m, maxR - n = m + 1 := ⟨maxR - n - 1, by omega⟩
  rw [hm]
  simp [pollLoopAux, hst, hurl]

/-- C2 witness: submit returns task id "T1"; query returns PENDING twice and
then SUCCEEDED with result address "R1"; fetching "R1" yields
"hello\nworld" — `recognize_with_polling` returns "hello\nworld" after
exactly 3 queries. -/
theorem recognize_polling_success_immediate_witness :
    recognize_with_polling (Except.ok "T1")
      (fun _ i => if i < 2 then ⟨Option.some ⟨Option.some "PENDING", Option.none⟩⟩
        else ⟨Option.some ⟨Option.some "SUCCEEDED",
          Option.some [⟨Option.some "R1", Option.none⟩]⟩⟩)
      (fun u => if u = "R1" then Except.ok "hello\nworld"
        else Except.error (AsrError.fetchError "unexpected url"))
      60 = (Except.ok "hello\nworld", 3) := by
  have h := recognize_polling_success_immediate "T1"
    (fun _ i => if i < 2 then ⟨Option.some ⟨Option.some "PENDING", Option.none⟩⟩
      else ⟨Option.some ⟨Option.some "SUCCEEDED",
        Option.some [⟨Option.some "R1", Option.none⟩]⟩⟩)
    (fun u => if u = "R1" then Except.ok "hello\nworld"
      else Except.error (AsrError.fetchError "unexpected url"))
    60 2 "R1" (by omega) (by decide) (by decide) (by decide)
  simpa using h

/-- C3: when none of the first `max_retries` snapshots is terminal the loop
performs exactly `max_retries` queries and then fails with the polling-timeout
error; and, for every submit outcome and snapshot stream, the number of
queries performed never exceeds `max_retries`. -/
theorem recognize_polling_timeout_bound
    (tid : String) (queries : String → Nat → Snapshot)
    (fetch : String → Except AsrError String) (maxR : Nat) :
    ((∀ j, j < maxR → nonTerminal (queries tid j)) →
      recognize_with_polling (Except.ok tid) queries fetch maxR
        = (Except.error AsrError.pollingTimeout, maxR))
    ∧ ∀ submit : Except AsrError String,
        (recognize_with_polling submit queries fetch maxR).2 ≤ maxR := by
  constructor
  · intro hall
    show pollLoopAux (queries tid) fetch maxR 0 = _
    have hskip := pollLoopAux_skipN (queries tid) fetch maxR maxR 0 le_rfl
      (fun j hj => by simpa using hall j hj)
    rw [hskip]
    simp [pollLoopAux]
  · intro submit
    cases submit with
    | error e => simp [recognize_with_polling]
    | ok t => simpa using pollLoopAux_count_le (queries t) fetch maxR 0

/-- C3 witness: with every snapshot PENDING and 60 attempts, the run times out
after exactly 60 queries, and the query count is bounded by 60. -/
theorem recognize_polling_timeout_bound_witness :
    recognize_with_polling (Except.ok "T1")
      (fun _ _ => ⟨Option.some ⟨Option.some "PENDING", Option.none⟩⟩)
      (fun _ => Except.ok "t") 60
      = (Except.error AsrError.pollingTimeout, 60)
    ∧ (recognize_with_polling (Except.ok "T1")
        (fun _ _ => ⟨Option.some ⟨Option.some "PENDING", Option.none⟩⟩)
        (fun _ => Except.ok "t") 60).2 ≤ 60 := by
  have h := recognize_polling_timeout_bound "T1"
    (fun _ _ => ⟨Option.some ⟨Option.some "PENDING", Option.none⟩⟩)
    (fun _ => Except.ok "t") 60
  exact ⟨h.1 (by decide), h.2 (Except.ok "T1")⟩

/-- C4: evaluation of the FAILED branch (asr_service.py lines 157-160).  A
first snapshot FAILED with message "bad audio" fails with that message after
exactly 1 query; a FAILED snapshot with the `results` key missing substitutes
the default generic message; but a FAILED snapshot with `results` present and
empty raises a Python `IndexError` from `[...][0]` instead of substituting
the default — the `[{}]` default of line 159 applies only when the key is
missing, not when the list is empty. -/
theorem recognize_polling_failed_branch_eval :
    recognize_with_polling (Except.ok "T1")
      (fun _ _ => ⟨Option.some ⟨Option.some "FAILED",
        Option.some [⟨Option.none, Option.some "bad audio"⟩]⟩⟩)
      (fun _ => Except.error (AsrError.fetchError "unused")) 60
      = (Except.error (AsrError.remoteTaskFailed "bad audio"), 1)
    ∧ recognize_with_polling (Except.ok "T1")
      (fun _ _ => ⟨Option.some ⟨Option.some "FAILED", Option.none⟩⟩)
      (fun _ => Except.error (AsrError.fetchError "unused")) 60
      = (Except.error (AsrError.remoteTaskFailed "识别任务失败"), 1)
    ∧ recognize_with_polling (Except.ok "T1")
      (fun _ _ => ⟨Option.some ⟨Option.some "FAILED", Option.some []⟩⟩)
      (fun _ => Except.error (AsrError.fetchError "unused")) 60
      = (Except.error AsrError.indexError, 1) :=
  ⟨rfl, rfl, rfl⟩

/-- C5: a SUCCEEDED snapshot that carries no non-empty result address (empty
or missing results list, missing or empty transcription url) makes the run
fail with the missing-result error after exactly `n + 1` queries — no further
query is performed after that snapshot. -/
theorem recognize_polling_missing_result
    (tid : String) (queries : String → Nat → Snapshot)
    (fetch : String → Except AsrError String) (maxR n : Nat)
    (hn : n < maxR)
    (hpre : ∀ j, j < n → nonTerminal (queries tid j))
    (hst : statusOf (queries tid n) = Option.some "SUCCEEDED")
    (hurl : firstResultUrl (queries tid n) = Option.none) :
    recognize_with_polling (Except.ok tid) queries fetch maxR
      = (Except.error AsrError.missingResult, n + 1) := by
  show pollLoopAux (queries tid) fetch maxR 0 = _
  have hskip := pollLoopAux_skipN (queries tid) fetch n maxR 0 (by omega)
    (fun j hj => by simpa using hpre j hj)
  rw [hskip]
  obtain ⟨m, hm⟩ : ∃ m, maxR - n = m + 1 := ⟨maxR - n - 1, by omega⟩
  rw [hm]
  simp [pollLoopAux, hst, hurl]

/-- C5 witness: a first snapshot SUCCEEDED with an empty results list fails
with the missing-result error after exactly 1 query. -/
theorem recognize_polling_missing_result_witness :
    recognize_with_polling (Except.ok "T1")
      (fun _ _ => ⟨Option.some ⟨Option.some "SUCCEEDED", Option.some []⟩⟩)
      (fun _ => Except.ok "t") 60
      = (Except.error AsrError.missingResult, 1) := by
  have h := recognize_polling_missing_result "T1"
    (fun _ _ => ⟨Option.some ⟨Option.some "SUCCEEDED", Option.some []⟩⟩)
    (fun _ => Except.ok "t") 60 0 (by omega) (by decide) (by decide) (by decide)
  simpa using h

/-- C10: a snapshot whose status is neither exactly "SUCCEEDED" nor exactly
"FAILED" (unknown status strings, missing status field, missing output
section) is treated as non-terminal: the loop neither returns nor fails
terminally on it but queries again with one fewer attempt remaining, and the
only other exit is the attempt bound (zero attempts left gives the timeout
error). -/
theorem polling_nonterminal_continues
    (queries : Nat → Snapshot) (fetch : String → Except AsrError String)
    (k i : Nat) (h : nonTerminal (queries i)) :
    pollLoopAux queries fetch (k + 1) i = pollLoopAux queries fetch k (i + 1)
    ∧ pollLoopAux queries fetch 0 i = (Except.error AsrError.pollingTimeout, i) :=
  ⟨pollLoopAux_step queries fetch k i h, rfl⟩

/-- C10 witness: an unknown status string, a missing status field, and a
missing output section all make the loop continue. -/
theorem polling_nonterminal_continues_witness :
    (pollLoopAux (fun _ => ⟨Option.some ⟨Option.some "WEIRD", Option.none⟩⟩)
        (fun _ => Except.ok "t") 5 0
      = pollLoopAux (fun _ => ⟨Option.some ⟨Option.some "WEIRD", Option.none⟩⟩)
        (fun _ => Except.ok "t") 4 1)
    ∧ (pollLoopAux (fun _ => ⟨Option.some ⟨Option.none, Option.none⟩⟩)
        (fun _ => Except.ok "t") 5 0
      = pollLoopAux (fun _ => ⟨Option.some ⟨Option.none, Option.none⟩⟩)
        (fun _ => Except.ok "t") 4 1)
    ∧ (pollLoopAux (fun _ => ⟨Option.none⟩) (fun _ => Except.ok "t") 5 0
      = pollLoopAux (fun _ => ⟨Option.none⟩) (fun _ => Except.ok "t") 4 1) :=
  ⟨(polling_nonterminal_continues (fun _ => ⟨Option.some ⟨Option.some "WEIRD", Option.none⟩⟩)
      (fun _ => Except.ok "t") 4 0 (by decide)).1,
   (polling_nonterminal_continues (fun _ => ⟨Option.some ⟨Option.none, Option.none⟩⟩)
      (fun _ => Except.ok "t") 4 0 (by decide)).1,
   (polling_nonterminal_continues (fun _ => ⟨Option.none⟩)
      (fun _ => Except.ok "t") 4 0 (by decide)).1⟩

/-!
## Upload → recognize → cleanup saga (`recognize_audio`, routers/asr.py lines 51-96)
-/

/-- `OSSService.delete_file` (oss_service.py lines 41-58): best-effort delete.
`bucketDelete` is the outcome of the underlying `bucket.delete_object` call;
the whole body is wrapped in try/except, so the function returns `false` on
any failure and never raises. -/
def delete_file (bucketDelete : Except String Unit) : Bool :=
  match bucketDelete with
  | Except.ok _ => true
  | Except.error _ => false

/-- `recognize_audio` (routers/asr.py lines 51-96).  `upload` is the outcome
of `oss_service.upload_audio` (the stored address on success), `recognize`
the outcome of `asr_service.recognize_with_polling` on that address, and
`bucketDelete` the outcome of the raw bucket delete for each address.  The
second component records every `delete_file` call with its address and its
boolean result.  On success the file is deleted (step 3) and the text
returned; on failure the except-branch deletes the file (when `file_url` was
set) and re-raises the original message as an HTTP 500 detail; when the
upload itself failed `file_url` is still `None` and no delete happens. -/
def recognize_audio (upload : Except String String)
    (recognize : String → Except String String)
    (bucketDelete : String → Except String Unit) :
    Except String String × List (String × Bool) :=
  match upload with
  | Except.error e => (Except.error e, [])
  | Except.ok file_url =>
    match recognize file_url with
    | Except.ok text =>
      (Except.ok text, [(file_url, delete_file (bucketDelete file_url))])
    | Except.error e =>
      (Except.error e, [(file_url, delete_file (bucketDelete file_url))])

/-- C1: after a successful store, the saga invokes delete exactly once with
the stored address, for every outcome of the recognition step; the recognition
outcome (result or error) is returned unchanged and does not depend on the
delete outcome; and when the store itself fails, delete is never invoked. -/
theorem recognize_audio_saga (url e : String)
    (recognize : String → Except String String)
    (bd bd' : String → Except String Unit) :
    (recognize_audio (Except.ok url) recognize bd).2 = [(url, delete_file (bd url))]
    ∧ (recognize_audio (Except.ok url) recognize bd).1 = recognize url
    ∧ recognize_audio (Except.error e) recognize bd = (Except.error e, [])
    ∧ (recognize_audio (Except.ok url) recognize bd).1
      = (recognize_audio (Except.ok url) recognize bd').1 := by
  cases h : recognize url <;> simp [recognize_audio, h]

/-!
## Completion invoker (`AIService.invoke_completion`, ai_service.py lines 17-64)
-/

/-- The remote outcome of the completion POST: a 2xx JSON body, a timeout, a
non-2xx status whose JSON error body carries optional string `message` /
`error` fields (the documented error envelope), or any other network fault. -/
inductive HttpOutcome where
  | ok (body : PyVal)
  | timeout
  | statusError (message : Option String) (error : Option String)
  | transportError (desc : String)

/-- Python `a or b` where `a` is an optional string: `None` and `""` are
falsy and select `b`. -/
def pyOrStr (a : Option String) (b : String) : String :=
  match a with
  | Option.some s => if s = "" then b else s
  | Option.none => b

/-- `AIService.invoke_completion` (ai_service.py lines 17-64).
`key = api_key or self.settings.bailian_api_key` (Python `or`: `None` and
`""` are falsy), then the POST is performed unconditionally with header
`Authorization: Bearer <key>`; `remote` maps the bearer key used to the
remote outcome.  The second component is the list of performed remote calls,
each recorded by its bearer key.  There is no credential check before the
call. -/
def invoke_completion (api_key : Option String) (settings_key : String)
    (remote : String → HttpOutcome) : Except String PyVal × List String :=
  let key := match api_key with
    | Option.some k => if k = "" then settings_key else k
    | Option.none => settings_key
  let result : Except String PyVal :=
    match remote key with
    | HttpOutcome.ok body => Except.ok body
    | HttpOutcome.timeout => Except.error "AI 生成超时（超过5分钟），请稍后重试或简化需求"
    | HttpOutcome.statusError m e => Except.error (pyOrStr m (pyOrStr e "调用百炼接口失败"))
    | HttpOutcome.transportError d => Except.error ("请求百炼接口异常: " ++ d)
  (result, [key])

/-- C9 counterexample: with no per-call credential and an empty configured
key, `invoke_completion` performs the remote call anyway (with the empty
bearer key) and returns whatever the remote returns — it does not fail with
an auth error before the call. -/
theorem invoke_completion_no_credential_cex :
    invoke_completion Option.none "" (fun _ => HttpOutcome.ok (PyVal.dict []))
      = (Except.ok (PyVal.dict []), [""]) := rfl

/-- C9 (amended): when no usable credential is available (per-call credential
absent or empty, configured key empty) the remote call is still performed,
exactly once, with the empty bearer key, and the outcome is determined solely
by the remote response — there is no local credential check. -/
theorem invoke_completion_no_credential_calls_remote
    (remote : String → HttpOutcome) (v : PyVal) :
    (invoke_completion Option.none "" remote).2 = [""]
    ∧ (invoke_completion (Option.some "") "" remote).2 = [""]
    ∧ (invoke_completion Option.none "" (fun _ => HttpOutcome.ok v)).1 = Except.ok v :=
  ⟨rfl, rfl, rfl⟩

/-!
## Plan generation pipeline (`generate_and_create_plan`, routers/ai.py lines 93-166)
-/

/-- Whitespace characters stripped by Python `str.strip()`: exactly the
characters on which `str.isspace()` is true — the ASCII whitespace \t \n \v
\f \r and space, the separators \x1c-\x1f, \x85, and the Unicode space
separators (NBSP, ogham space, U+2000-U+200A, line/paragraph separators,
narrow NBSP, medium mathematical space, ideographic space). -/
def isPySpace (c : Char) : Bool :=
  let n := c.toNat
  (9 ≤ n && n ≤ 13) || (28 ≤ n && n ≤ 31) || n = 32 || n = 133 || n = 160
    || n = 0x1680 || (0x2000 ≤ n && n ≤ 0x200A) || n = 0x2028 || n = 0x2029
    || n = 0x202F || n = 0x205F || n = 0x3000

/-- Python `s.strip()` on a string: drop leading and trailing whitespace. -/
def pyStripStr (s : String) : String :=
  String.mk (((s.toList.dropWhile isPySpace).reverse.dropWhile isPySpace).reverse)

/-- Python `v.strip()`: only a string has the method; anything else raises
`AttributeError`. -/
def pyStrip (v : PyVal) : Except PyErr String :=
  match v with
  | PyVal.str s => Except.ok (pyStripStr s)
  | _ => Except.error PyErr.attributeError

/-- `ai_data.get(k, "").strip() or dflt` (routers/ai.py lines 126-127, 135,
136, 142): fetch with `""` default, strip, and substitute `dflt` when the
stripped string is empty. -/
def stripOr (doc : List (String × PyVal)) (k dflt : String) : Except PyErr String :=
  match pyStrip (dictGetD doc k (PyVal.str "")) with
  | Except.error e => Except.error e
  | Except.ok s => Except.ok (if s = "" then dflt else s)

/-- `ai_data.get("preferences", []) if isinstance(ai_data.get("preferences"),
list) else []` (routers/ai.py line 140). -/
def prefsField (doc : List (String × PyVal)) : List PyVal :=
  match dictLookup doc "preferences" with
  | Option.some (PyVal.list xs) => xs
  | _ => []

/-- The `plan_data` dict built on routers/ai.py lines 133-144. -/
structure PlanData where
  user_id : String
  title : String
  destination : String
  days : PyVal
  budget : PyVal
  travelers : PyVal
  preferences : List PyVal
  start_date : String
  summary : String
  ai_response : List (String × PyVal)

/-- Construction of `plan_data` from the parsed AI document `ai_data`
(routers/ai.py lines 124-144).  `defaultStartDate` stands for
`(datetime.now() + timedelta(days=3)).strftime("%Y-%m-%d")`.  The `.strip()`
calls are evaluated in source order (`start_date` first, then the dict
literal fields) and raise on non-string values; `days`, `budget` and
`travelers` are plain `.get` calls whose default applies only when the key is
missing. -/
def buildPlanData (doc : List (String × PyVal)) (defaultStartDate user_id : String) :
    Except PyErr PlanData :=
  match stripOr doc "start_date" defaultStartDate with
  | Except.error e => Except.error e
  | Except.ok sd =>
    match stripOr doc "title" "未命名行程" with
    | Except.error e => Except.error e
    | Except.ok t =>
      match stripOr doc "destination" "未知目的地" with
      | Except.error e => Except.error e
      | Except.ok dest =>
        match stripOr doc "summary" "" with
        | Except.error e => Except.error e
        | Except.ok sm =>
          Except.ok ⟨user_id, t, dest, dictGetD doc "days" (PyVal.int 1),
            dictGetD doc "budget" (PyVal.int 0), dictGetD doc "travelers" (PyVal.int 1),
            prefsField doc, sd, sm, doc⟩

theorem stripOr_ok_of_absent_or_blank (doc : List (String × PyVal)) (k dflt : String)
    (h : dictLookup doc k = Option.none
      ∨ ∃ s, dictLookup doc k = Option.some (PyVal.str s) ∧ pyStripStr s = "") :
    stripOr doc k dflt = Except.ok dflt := by
  unfold stripOr dictGetD
  rcases h with h | ⟨s, hs, hstrip⟩
  · simp only [h]
    show (match pyStrip (PyVal.str "") with
      | Except.error e => Except.error e
      | Except.ok s => Except.ok (if s = "" then dflt else s)) = _
    simp [pyStrip, pyStripStr]
  · simp only [hs]
    simp [pyStrip, hstrip]

theorem buildPlanData_fields (doc : List (String × PyVal)) (d u : String) (pd : PlanData)
    (h : buildPlanData doc d u = Except.ok pd) :
    stripOr doc "start_date" d = Except.ok pd.start_date
    ∧ stripOr doc "title" "未命名行程" = Except.ok pd.title
    ∧ stripOr doc "destination" "未知目的地" = Except.ok pd.destination
    ∧ stripOr doc "summary" "" = Except.ok pd.summary
    ∧ pd.days = dictGetD doc "days" (PyVal.int 1)
    ∧ pd.budget = dictGetD doc "budget" (PyVal.int 0)
    ∧ pd.travelers = dictGetD doc "travelers" (PyVal.int 1)
    ∧ pd.preferences = prefsField doc
    ∧ pd.user_id = u ∧ pd.ai_response = doc := by
  unfold buildPlanData at h
  rcases h1 : stripOr doc "start_date" d with e | sd
  · simp only [h1] at h; cases h
  simp only [h1] at h
  rcases h2 : stripOr doc "title" "未命名行程" with e | t
  · simp only [h2] at h; cases h
  simp only [h2] at h
  rcases h3 : stripOr doc "destination" "未知目的地" with e | dest
  · simp only [h3] at h; cases h
  simp only [h3] at h
  rcases h4 : stripOr doc "summary" "" with e | sm
  · simp only [h4] at h; cases h
  simp only [h4] at h
  cases h
  exact ⟨rfl, rfl, rfl, rfl, rfl, rfl, rfl, rfl, rfl, rfl⟩

/-- C7 counterexample: defaulting with whitespace-trimming does not apply to
every field of §4.3 — a document whose "days" field is the empty string keeps
`days = ""` (the `.get("days", 1)` default applies only when the key is
missing), instead of yielding the documented default 1. -/
theorem plan_days_blank_not_defaulted_cex :
    buildPlanData [("days", PyVal.str "")] "2026-01-01" "u1"
      = Except.ok ⟨"u1", "未命名行程", "未知目的地", PyVal.str "", PyVal.int 0, PyVal.int 1, [],
          "2026-01-01", "", [("days", PyVal.str "")]⟩
    ∧ PyVal.str "" ≠ PyVal.int 1 :=
  ⟨rfl, fun h => PyVal.noConfusion h⟩

/-- C7 (amended): the string fields title, destination, start_date and
summary are trimmed and substituted by their documented (localized) defaults
when absent, empty or whitespace-only; days, budget and travelers default
only when absent and any present value (even an empty string) passes through
unchanged; preferences defaults to the empty list when absent (or not a
list) and is kept when a list; and the scenario document
`{"title": "  ", "days": 5}` yields exactly the documented draft. -/
theorem plan_field_defaults (d u : String) :
    (∀ (doc : List (String × PyVal)) (pd : PlanData),
      buildPlanData doc d u = Except.ok pd →
      ((dictLookup doc "title" = Option.none
          ∨ ∃ s, dictLookup doc "title" = Option.some (PyVal.str s) ∧ pyStripStr s = "") →
        pd.title = "未命名行程")
      ∧ ((dictLookup doc "destination" = Option.none
          ∨ ∃ s, dictLookup doc "destination" = Option.some (PyVal.str s) ∧ pyStripStr s = "") →
        pd.destination = "未知目的地")
      ∧ ((dictLookup doc "start_date" = Option.none
          ∨ ∃ s, dictLookup doc "start_date" = Option.some (PyVal.str s) ∧ pyStripStr s = "") →
        pd.start_date = d)
      ∧ ((dictLookup doc "summary" = Option.none
          ∨ ∃ s, dictLookup doc "summary" = Option.some (PyVal.str s) ∧ pyStripStr s = "") →
        pd.summary = "")
      ∧ (dictLookup doc "days" = Option.none → pd.days = PyVal.int 1)
      ∧ (∀ v, dictLookup doc "days" = Option.some v → pd.days = v)
      ∧ (dictLookup doc "budget" = Option.none → pd.budget = PyVal.int 0)
      ∧ (∀ v, dictLookup doc "budget" = Option.some v → pd.budget = v)
      ∧ (dictLookup doc "travelers" = Option.none → pd.travelers = PyVal.int 1)
      ∧ (∀ v, dictLookup doc "travelers" = Option.some v → pd.travelers = v)
      ∧ (dictLookup doc "preferences" = Option.none → pd.preferences = [])
      ∧ (∀ v, dictLookup doc "preferences" = Option.some v →
          (∀ xs, v ≠ PyVal.list xs) → pd.preferences = [])
      ∧ (∀ xs, dictLookup doc "preferences" = Option.some (PyVal.list xs) →
          pd.preferences = xs))
    ∧ buildPlanData [("title", PyVal.str "  "), ("days", PyVal.int 5)] d u
      = Except.ok ⟨u, "未命名行程", "未知目的地", PyVal.int 5, PyVal.int 0, PyVal.int 1, [],
          d, "", [("title", PyVal.str "  "), ("days", PyVal.int 5)]⟩ := by
  constructor
  · intro doc pd h
    obtain ⟨hsd, ht, hdest, hsm, hdays, hbud, htrav, hpref, _, _⟩ :=
      buildPlanData_fields doc d u pd h
    refine ⟨?_, ?_, ?_, ?_, ?_, ?_, ?_, ?_, ?_, ?_, ?_, ?_, ?_⟩
    · intro hc
      have h' := stripOr_ok_of_absent_or_blank doc "title" "未命名行程" hc
      rw [ht] at h'; exact Except.ok.inj h'
    · intro hc
      have h' := stripOr_ok_of_absent_or_blank doc "destination" "未知目的地" hc
      rw [hdest] at h'; exact Except.ok.inj h'
    · intro hc
      have h' := stripOr_ok_of_absent_or_blank doc "start_date" d hc
      rw [hsd] at h'; exact Except.ok.inj h'
    · intro hc
      have h' := stripOr_ok_of_absent_or_blank doc "summary" "" hc
      rw [hsm] at h'; exact Except.ok.inj h'
    · intro hc; rw [hdays]; simp [dictGetD, hc]
    · intro v hv; rw [hdays]; simp [dictGetD, hv]
    · intro hc; rw [hbud]; simp [dictGetD, hc]
    · intro v hv; rw [hbud]; simp [dictGetD, hv]
    · intro hc; rw [htrav]; simp [dictGetD, hc]
    · intro v hv; rw [htrav]; simp [dictGetD, hv]
    · intro hc; rw [hpref]; simp [prefsField, hc]
    · intro v hv hnl
      rw [hpref]
      unfold prefsField
      rw [hv]
      cases v <;> first | rfl | exact absurd rfl (hnl _)
    · intro xs hv; rw [hpref]; simp [prefsField, hv]
  · rfl

/-- C7 witness: the scenario document at concrete inputs, the title default
discharged through the amended theorem's hypotheses, and the normalization
of a present non-list preferences value to the empty list. -/
theorem plan_field_defaults_witness :
    buildPlanData [("title", PyVal.str "  "), ("days", PyVal.int 5)] "2026-01-01" "u1"
      = Except.ok ⟨"u1", "未命名行程", "未知目的地", PyVal.int 5, PyVal.int 0, PyVal.int 1, [],
          "2026-01-01", "", [("title", PyVal.str "  "), ("days", PyVal.int 5)]⟩
    ∧ (⟨"u1", "未命名行程", "未知目的地", PyVal.int 5, PyVal.int 0, PyVal.int 1, [],
          "2026-01-01", "", [("title", PyVal.str "  "), ("days", PyVal.int 5)]⟩ : PlanData).title
        = "未命名行程"
    ∧ (⟨"u1", "未命名行程", "未知目的地", PyVal.int 1, PyVal.int 0, PyVal.int 1, [],
          "2026-01-01", "", [("preferences", PyVal.str "x")]⟩ : PlanData).preferences
        = ([] : List PyVal) := by
  have h := plan_field_defaults "2026-01-01" "u1"
  refine ⟨h.2, (h.1 _ _ h.2).1 (Or.inr ⟨"  ", rfl, rfl⟩), ?_⟩
  have h2 : buildPlanData [("preferences", PyVal.str "x")] "2026-01-01" "u1"
      = Except.ok ⟨"u1", "未命名行程", "未知目的地", PyVal.int 1, PyVal.int 0, PyVal.int 1, [],
          "2026-01-01", "", [("preferences", PyVal.str "x")]⟩ := rfl
  obtain ⟨-, -, -, -, -, -, -, -, -, -, -, hnl, -⟩ := h.1 _ _ h2
  exact hnl (PyVal.str "x") rfl (fun xs hx => PyVal.noConfusion hx)

/-- The errors surfaced by the generate-and-persist pipeline after text
extraction. -/
inductive PipelineErr where
  | malformed (msg : String)      -- `raise Exception(f"AI 返回的内容不是有效的 JSON: {str(e)}")`
  | pyError (e : PyErr)           -- an uncaught Python error while building plan_data
  | persistFailed (msg : String)  -- `plan_service.create_plan` raised

/-- Steps 2-4 of `generate_and_create_plan` (routers/ai.py lines 117-158)
after text extraction: `parsed` is the outcome of `json.loads(text_content)`
(on failure carrying `str(e)` of the decode error, which does not include
the document text); on a parsed dict the plan data is built and
`plan_service.create_plan` (`persist`) is called.  The second component
records whether `create_plan` was invoked. -/
def generate_plan_tail (parsed : Except String PyVal) (defaultStartDate user_id : String)
    (persist : PlanData → Except String String) : Except PipelineErr String × Bool :=
  match parsed with
  | Except.error emsg =>
    (Except.error (PipelineErr.malformed ("AI 返回的内容不是有效的 JSON: " ++ emsg)), false)
  | Except.ok (PyVal.dict kvs) =>
    match buildPlanData kvs defaultStartDate user_id with
    | Except.error e => (Except.error (PipelineErr.pyError e), false)
    | Except.ok pd =>
      match persist pd with
      | Except.ok pid => (Except.ok pid, true)
      | Except.error m => (Except.error (PipelineErr.persistFailed m), true)
  | Except.ok _ => (Except.error (PipelineErr.pyError PyErr.attributeError), false)

/-- C8 counterexample: for the unparseable generation text "hello",
CPython's `json.loads` raises `ValueError("Expecting value: line 1 column 1
(char 0)")`; the pipeline's surfaced message wraps only that `str(e)` and
does not contain the original raw text — and nothing is persisted. -/
theorem pipeline_malformed_cex :
    generate_plan_tail (Except.error "Expecting value: line 1 column 1 (char 0)")
      "2026-01-01" "u1" (fun _ => Except.ok "pid")
      = (Except.error (PipelineErr.malformed
          "AI 返回的内容不是有效的 JSON: Expecting value: line 1 column 1 (char 0)"), false)
    ∧ strContains "AI 返回的内容不是有效的 JSON: Expecting value: line 1 column 1 (char 0)" "hello"
        = false := by
  exact ⟨rfl, by decide⟩

/-- C8 (amended): on every parse failure the pipeline fails with the fixed
prefix "AI 返回的内容不是有效的 JSON: " followed by the parse error's own
message (the raw text itself is not included), and `create_plan` is never
invoked. -/
theorem pipeline_malformed_wraps_parse_error (emsg d u : String)
    (persist : PlanData → Except String String) :
    generate_plan_tail (Except.error emsg) d u persist
      = (Except.error (PipelineErr.malformed ("AI 返回的内容不是有效的 JSON: " ++ emsg)), false) :=
  rfl
